import Mathlib

/-!
Verification of the pricing-calculator client core
(src/src/App.tsx and src/src/App_fixed.tsx).

The React component state is embedded as an explicit record `AppState`;
the event handlers (`handleSubmit`, `handleRetry`, `handleBackToForm`,
`handleInputChange`) become pure state-transition functions.  The only
suspension point in the source is the `fetch` call inside `handleSubmit`,
so that handler is split into a start phase (everything before `await`)
and a finish phase (everything after), parametrised by the outcome of
the network call.
-/

/-- The `FormData` interface of App.tsx (lines 4-17).  The three numeric
fields are embedded as `Int` (they are `parseInt` results in the source). -/
structure FormData where
  callsPerDay : Int
  avgCallDuration : Int
  estimatedUsers : Int
  llmProvider : String
  customLlmProvider : String
  sttProvider : String
  customSttProvider : String
  ttsProvider : String
  customTtsProvider : String
  knowledgeBaseSize : String
  selfHosted : Bool
  gpuInstanceType : String
deriving DecidableEq, Repr

/-- The initial `formData` passed to `useState` in App.tsx (lines 128-141). -/
def initialFormData : FormData :=
  { callsPerDay := 50
    avgCallDuration := 5
    estimatedUsers := 10
    llmProvider := ""
    customLlmProvider := ""
    sttProvider := ""
    customSttProvider := ""
    ttsProvider := ""
    customTtsProvider := ""
    knowledgeBaseSize := ""
    selfHosted := false
    gpuInstanceType := "" }

/-- The shape of the `requestData` object built in `handleSubmit`
(App.tsx lines 162-172): the seven active form fields plus the two
forced-disabled fields.  The custom-provider strings have no field here,
exactly as in the source object literal. -/
structure RequestPayload where
  callsPerDay : Int
  avgCallDuration : Int
  estimatedUsers : Int
  llmProvider : String
  sttProvider : String
  ttsProvider : String
  knowledgeBaseSize : String
  selfHosted : Bool
  gpuInstanceType : String
deriving DecidableEq, Repr

/-- `requestData` construction in `handleSubmit` (App.tsx lines 162-172):
copies the seven active fields from `formData`, hard-codes
`selfHosted: false` and `gpuInstanceType: ""`. -/
def toRequestPayload (fd : FormData) : RequestPayload :=
  { callsPerDay := fd.callsPerDay
    avgCallDuration := fd.avgCallDuration
    estimatedUsers := fd.estimatedUsers
    llmProvider := fd.llmProvider
    sttProvider := fd.sttProvider
    ttsProvider := fd.ttsProvider
    knowledgeBaseSize := fd.knowledgeBaseSize
    selfHosted := false
    gpuInstanceType := "" }

/-- `isFormValid` (App.tsx lines 212-222).  The source returns the last
operand under JS truthiness; a non-empty string is truthy, so the
string conjuncts are embedded as disequality with `""`. -/
def isFormValid (fd : FormData) : Bool :=
  decide (0 < fd.callsPerDay) &&
  decide (0 < fd.avgCallDuration) &&
  decide (0 < fd.estimatedUsers) &&
  (fd.llmProvider != "") &&
  (fd.sttProvider != "") &&
  (fd.ttsProvider != "") &&
  (fd.knowledgeBaseSize != "")

/-- One call of `handleInputChange(field, value)` (App.tsx lines 148-153):
a single-field update of `FormData`, one constructor per field. -/
inductive FieldUpdate where
  | callsPerDay (v : Int)
  | avgCallDuration (v : Int)
  | estimatedUsers (v : Int)
  | llmProvider (v : String)
  | customLlmProvider (v : String)
  | sttProvider (v : String)
  | customSttProvider (v : String)
  | ttsProvider (v : String)
  | customTtsProvider (v : String)
  | knowledgeBaseSize (v : String)
  | selfHosted (v : Bool)
  | gpuInstanceType (v : String)

/-- Which field a `FieldUpdate` targets (the `field` argument of
`handleInputChange`), as an index. -/
def fieldTag : FieldUpdate → Nat
  | .callsPerDay _ => 0
  | .avgCallDuration _ => 1
  | .estimatedUsers _ => 2
  | .llmProvider _ => 3
  | .customLlmProvider _ => 4
  | .sttProvider _ => 5
  | .customSttProvider _ => 6
  | .ttsProvider _ => 7
  | .customTtsProvider _ => 8
  | .knowledgeBaseSize _ => 9
  | .selfHosted _ => 10
  | .gpuInstanceType _ => 11

/-- `handleInputChange` (App.tsx lines 148-153): spread the previous
form data and replace the one addressed field. -/
def handleInputChange (fd : FormData) : FieldUpdate → FormData
  | .callsPerDay v => { fd with callsPerDay := v }
  | .avgCallDuration v => { fd with avgCallDuration := v }
  | .estimatedUsers v => { fd with estimatedUsers := v }
  | .llmProvider v => { fd with llmProvider := v }
  | .customLlmProvider v => { fd with customLlmProvider := v }
  | .sttProvider v => { fd with sttProvider := v }
  | .customSttProvider v => { fd with customSttProvider := v }
  | .ttsProvider v => { fd with ttsProvider := v }
  | .customTtsProvider v => { fd with customTtsProvider := v }
  | .knowledgeBaseSize v => { fd with knowledgeBaseSize := v }
  | .selfHosted v => { fd with selfHosted := v }
  | .gpuInstanceType v => { fd with gpuInstanceType := v }

/-- The form data of Scenario A of the spec. -/
def scenarioAFormData : FormData :=
  { callsPerDay := 50
    avgCallDuration := 5
    estimatedUsers := 10
    llmProvider := "OpenAI"
    customLlmProvider := ""
    sttProvider := "Deepgram"
    customSttProvider := ""
    ttsProvider := "ElevenLabs"
    customTtsProvider := ""
    knowledgeBaseSize := "Medium (1-10MB)"
    selfHosted := false
    gpuInstanceType := "" }

/-- Claim C6: for every `FormData`, regardless of the stored values of
`selfHosted`, `gpuInstanceType` and the three custom-provider fields,
`toRequestPayload` yields `selfHosted = false` and `gpuInstanceType = ""`,
copies the seven active fields unchanged, and is invariant under any
change of the custom-provider and disabled fields (so they are never
included in the payload). -/
theorem toRequestPayload_forces_disabled_and_drops_custom
    (fd : FormData) (c1 c2 c3 g : String) (b : Bool) :
    (toRequestPayload fd).selfHosted = false ∧
    (toRequestPayload fd).gpuInstanceType = "" ∧
    (toRequestPayload fd).callsPerDay = fd.callsPerDay ∧
    (toRequestPayload fd).avgCallDuration = fd.avgCallDuration ∧
    (toRequestPayload fd).estimatedUsers = fd.estimatedUsers ∧
    (toRequestPayload fd).llmProvider = fd.llmProvider ∧
    (toRequestPayload fd).sttProvider = fd.sttProvider ∧
    (toRequestPayload fd).ttsProvider = fd.ttsProvider ∧
    (toRequestPayload fd).knowledgeBaseSize = fd.knowledgeBaseSize ∧
    toRequestPayload { fd with customLlmProvider := c1, customSttProvider := c2, customTtsProvider := c3, selfHosted := b, gpuInstanceType := g }
      = toRequestPayload fd :=
  ⟨rfl, rfl, rfl, rfl, rfl, rfl, rfl, rfl, rfl, rfl⟩

/-- Claim C7: `isFormValid` is true exactly when the three numeric fields
are positive and the four categorical fields are non-empty, and the
result is independent of the order in which (distinct) fields were set:
updates to two distinct fields commute under validation. -/
theorem isFormValid_iff_and_order_independent
    (fd : FormData) (u1 u2 : FieldUpdate) (h : fieldTag u1 ≠ fieldTag u2) :
    (isFormValid fd = true ↔
      (0 < fd.callsPerDay ∧ 0 < fd.avgCallDuration ∧ 0 < fd.estimatedUsers ∧
       fd.llmProvider ≠ "" ∧ fd.sttProvider ≠ "" ∧ fd.ttsProvider ≠ "" ∧
       fd.knowledgeBaseSize ≠ "")) ∧
    isFormValid (handleInputChange (handleInputChange fd u1) u2)
      = isFormValid (handleInputChange (handleInputChange fd u2) u1) := by
  constructor
  · simp [isFormValid, and_assoc]
  · have hc : handleInputChange (handleInputChange fd u1) u2
        = handleInputChange (handleInputChange fd u2) u1 := by
      cases u1 <;> cases u2 <;> first | rfl | exact absurd rfl h
    rw [hc]

/-- Witness for C7 at Scenario A data and two concrete distinct fields. -/
theorem isFormValid_iff_and_order_independent_witness :
    (isFormValid scenarioAFormData = true ↔
      (0 < scenarioAFormData.callsPerDay ∧ 0 < scenarioAFormData.avgCallDuration ∧
       0 < scenarioAFormData.estimatedUsers ∧
       scenarioAFormData.llmProvider ≠ "" ∧ scenarioAFormData.sttProvider ≠ "" ∧
       scenarioAFormData.ttsProvider ≠ "" ∧ scenarioAFormData.knowledgeBaseSize ≠ "")) ∧
    isFormValid (handleInputChange (handleInputChange scenarioAFormData (FieldUpdate.callsPerDay 1)) (FieldUpdate.llmProvider "Claude"))
      = isFormValid (handleInputChange (handleInputChange scenarioAFormData (FieldUpdate.llmProvider "Claude")) (FieldUpdate.callsPerDay 1)) :=
  isFormValid_iff_and_order_independent scenarioAFormData
    (FieldUpdate.callsPerDay 1) (FieldUpdate.llmProvider "Claude") (by decide)

/-- Untyped decoded JSON document, the result of `response.json()` in
`handleSubmit` (App.tsx line 188).  Numbers carry an `Int` payload; no
claim depends on numeric values, only on structure. -/
inductive Json where
  | null : Json
  | bool : Bool → Json
  | num : Int → Json
  | str : String → Json
  | arr : List Json → Json
  | obj : List (String × Json) → Json

/-- Outcome of the awaited `fetch` in `handleSubmit` (App.tsx lines
176-188): either the promise rejects (transport failure), or a response
arrives with an `ok` flag and a body; `none` for the body means
`response.json()` itself throws (undecodable body). -/
inductive NetworkOutcome where
  | transportError : NetworkOutcome
  | response (ok : Bool) (body : Option Json) : NetworkOutcome

/-- The component state of App.tsx (lines 128-146): `formData`,
`isLoading`, `estimate`, `error`, `showResults`.  `estimate = none`
covers both the initial `null` and the JS `undefined` produced by
indexing an empty array (both falsy, rendered identically). -/
structure AppState where
  formData : FormData
  isLoading : Bool
  estimate : Option Json
  error : Option String
  showResults : Bool

/-- The initial component state (App.tsx lines 128-146). -/
def initialState : AppState :=
  { formData := initialFormData
    isLoading := false
    estimate := none
    error := none
    showResults := false }

/-- The error message set in the catch branch of `handleSubmit`
(App.tsx line 194), identical in both UI variants. -/
def genericErrorMessage : String :=
  "Failed to calculate cost estimate. Please try again."

/-- `const estimateData = Array.isArray(data) ? data[0] : data`
(App.tsx line 190).  `data[0]` of an empty array is `undefined`,
embedded as `none`; any non-array document passes through unchanged. -/
def unwrapResponse (data : Json) : Option Json :=
  match data with
  | .arr xs => xs.head?
  | d => some d

/-- The synchronous prefix of `handleSubmit` (App.tsx lines 155-182):
set `isLoading` to true, clear `error`, build `requestData` from the
current form data and issue the POST.  Returns the new state and the
payload of the issued request. -/
def handleSubmitStart (s : AppState) : AppState × RequestPayload :=
  ({ s with isLoading := true, error := none }, toRequestPayload s.formData)

/-- The continuation of `handleSubmit` after the awaited network call
(App.tsx lines 184-198): a non-ok status throws, an undecodable body
throws, and the catch branch sets the generic error message; an ok,
decodable body is unwrapped, stored as the estimate and the results
page is shown.  The finally branch clears `isLoading` in every case. -/
def handleSubmitFinish (s : AppState) (o : NetworkOutcome) : AppState :=
  match o with
  | .transportError => { s with isLoading := false, error := some genericErrorMessage }
  | .response ok body =>
    if ok then
      match body with
      | some data =>
          { s with isLoading := false, estimate := unwrapResponse data, showResults := true }
      | none => { s with isLoading := false, error := some genericErrorMessage }
    else { s with isLoading := false, error := some genericErrorMessage }

/-- A whole run of `handleSubmit` for a given network outcome: the start
phase followed by the finish phase, also returning the issued payload. -/
def handleSubmitRun (s : AppState) (o : NetworkOutcome) : AppState × RequestPayload :=
  (handleSubmitFinish (handleSubmitStart s).1 o, (handleSubmitStart s).2)

/-- `handleBackToForm` (App.tsx lines 201-205): hide the results page
and clear both the estimate and the error. -/
def handleBackToForm (s : AppState) : AppState :=
  { s with showResults := false, estimate := none, error := none }

/-- The submit button click (App.tsx lines 380-383): the button is
disabled when `!isFormValid() || isLoading`, so the user-level submit
action runs `handleSubmit` only when enabled.  Returns the new state and
the issued request payload, `none` when no request is issued. -/
def submitReq (s : AppState) : AppState × Option RequestPayload :=
  if !isFormValid s.formData || s.isLoading then (s, none)
  else ((handleSubmitStart s).1, some (handleSubmitStart s).2)

/-- The retry button click (App.tsx lines 616-620 and 207-210): disabled
while `isLoading`; otherwise `handleRetry` clears the error and calls
`handleSubmit` again, which rebuilds the payload from the current form
data and issues it. -/
def retryReq (s : AppState) : AppState × Option RequestPayload :=
  if s.isLoading then (s, none)
  else
    ((handleSubmitStart { s with error := none }).1,
     some (handleSubmitStart { s with error := none }).2)

/-- Resolution of the pending network call: applies the finish phase of
`handleSubmit` when a request is in flight (`isLoading`). -/
def resolvePending (s : AppState) (o : NetworkOutcome) : AppState :=
  if s.isLoading then handleSubmitFinish s o else s

/-- The user/network events that drive the component. -/
inductive Event where
  | input (u : FieldUpdate) : Event
  | submitStart : Event
  | retryStart : Event
  | resolve (o : NetworkOutcome) : Event
  | backToForm : Event

/-- One step of the embedded component: field edits, the two guarded
button clicks, resolution of the pending call, and back-to-form. -/
def step (s : AppState) : Event → AppState
  | .input u => { s with formData := handleInputChange s.formData u }
  | .submitStart => (submitReq s).1
  | .retryStart => (retryReq s).1
  | .resolve o => resolvePending s o
  | .backToForm => handleBackToForm s

/-- States reachable from the initial component state by event steps. -/
inductive Reachable : AppState → Prop where
  | init : Reachable initialState
  | next {s : AppState} (e : Event) : Reachable s → Reachable (step s e)

/-- The two screens of the two-screen flow: the outermost render
conditional of App.tsx (line 227) shows the form page when
`showResults` is false and the results page otherwise. -/
inductive Screen where
  | formScreen : Screen
  | resultsScreen : Screen
deriving DecidableEq

/-- The screen derived from the component state (App.tsx line 227). -/
def viewOf (s : AppState) : Screen :=
  if s.showResults then .resultsScreen else .formScreen

/-- The four SubmissionController states of the spec. -/
inductive ControllerState where
  | idle : ControllerState
  | submitting : ControllerState
  | success : ControllerState
  | failed : ControllerState
deriving DecidableEq

/-- Modelled from the spec: the SubmissionController state of section 4.3
derived from the React state fields.  `isLoading` is Submitting, a stored
error is Failed, a stored estimate is Success, otherwise Idle. -/
def controllerOf (s : AppState) : ControllerState :=
  if s.isLoading then .submitting
  else if s.error.isSome then .failed
  else if s.estimate.isSome then .success
  else .idle

/-- Modelled from the spec: the pure `backToForm()` view action of
section 4.4, which returns to the form screen and touches nothing else. -/
def backToFormView (s : AppState) : AppState :=
  { s with showResults := false }

/-- Modelled from the spec: the `reset()` action of section 4.3, which
clears the estimate and the message and returns to Idle. -/
def reset (s : AppState) : AppState :=
  { s with estimate := none, error := none }

namespace Fixed

/-- `isFormValid` of the split-pane variant (App_fixed.tsx lines 199-209). -/
def isFormValid (fd : FormData) : Bool :=
  decide (0 < fd.callsPerDay) &&
  decide (0 < fd.avgCallDuration) &&
  decide (0 < fd.estimatedUsers) &&
  (fd.llmProvider != "") &&
  (fd.sttProvider != "") &&
  (fd.ttsProvider != "") &&
  (fd.knowledgeBaseSize != "")

/-- `requestData` construction of the split-pane variant
(App_fixed.tsx lines 161-171). -/
def toRequestPayload (fd : FormData) : RequestPayload :=
  { callsPerDay := fd.callsPerDay
    avgCallDuration := fd.avgCallDuration
    estimatedUsers := fd.estimatedUsers
    llmProvider := fd.llmProvider
    sttProvider := fd.sttProvider
    ttsProvider := fd.ttsProvider
    knowledgeBaseSize := fd.knowledgeBaseSize
    selfHosted := false
    gpuInstanceType := "" }

/-- The catch-branch error message of the split-pane variant
(App_fixed.tsx line 192). -/
def genericErrorMessage : String :=
  "Failed to calculate cost estimate. Please try again."

end Fixed

/-- Field lookup in a decoded JSON object. -/
def jgetObj : List (String × Json) → String → Option Json
  | [], _ => none
  | (k, v) :: rest, key => if k == key then some v else jgetObj rest key

/-- The looked-up field exists and is a number. -/
def isNumField (j : Option Json) : Bool :=
  match j with
  | some (.num _) => true
  | _ => false

/-- The looked-up field exists and is a string. -/
def isStrField (j : Option Json) : Bool :=
  match j with
  | some (.str _) => true
  | _ => false

/-- The looked-up field is a range triple: an object with numeric
`min`, `max` and `avg`. -/
def isRangeTriple (j : Option Json) : Bool :=
  match j with
  | some (.obj fs) =>
      isNumField (jgetObj fs "min") && isNumField (jgetObj fs "max") &&
      isNumField (jgetObj fs "avg")
  | _ => false

/-- A service record with provider, model, description and cost range
(the llm, stt and tts entries of `serviceDetails`). -/
def isModelService (j : Option Json) : Bool :=
  match j with
  | some (.obj fs) =>
      isStrField (jgetObj fs "provider") && isStrField (jgetObj fs "model") &&
      isStrField (jgetObj fs "description") && isRangeTriple (jgetObj fs "costRange")
  | _ => false

/-- The voice-carrier record of `serviceDetails` (no model field). -/
def isCarrierService (j : Option Json) : Bool :=
  match j with
  | some (.obj fs) =>
      isStrField (jgetObj fs "provider") && isStrField (jgetObj fs "description") &&
      isRangeTriple (jgetObj fs "costRange")
  | _ => false

/-- The server record of `serviceDetails` (instance type instead of model). -/
def isServerService (j : Option Json) : Bool :=
  match j with
  | some (.obj fs) =>
      isStrField (jgetObj fs "provider") && isStrField (jgetObj fs "instanceType") &&
      isStrField (jgetObj fs "description") && isRangeTriple (jgetObj fs "costRange")
  | _ => false

/-- Modelled from the spec: structural well-formedness of a decoded
`CostEstimate` document (sections 3 and 4.2) — an object whose
`costSummary` carries all nine range-triple keys and whose
`serviceDetails` carries all five service keys with their required
sub-fields.  The source performs no such check; this predicate exists
only to state which documents the spec calls well-formed. -/
def isWellFormedEstimate (d : Json) : Bool :=
  match d with
  | .obj fs =>
      (match jgetObj fs "costSummary" with
       | some (.obj cs) =>
           isRangeTriple (jgetObj cs "totalMonthlyCostRange") &&
           isRangeTriple (jgetObj cs "llmCostRange") &&
           isRangeTriple (jgetObj cs "knowledgeBaseTokenCostRange") &&
           isRangeTriple (jgetObj cs "sttCostRange") &&
           isRangeTriple (jgetObj cs "ttsCostRange") &&
           isRangeTriple (jgetObj cs "twilioCostRange") &&
           isRangeTriple (jgetObj cs "serverCostRange") &&
           isRangeTriple (jgetObj cs "costPerUserRange") &&
           isRangeTriple (jgetObj cs "costPerCallRange")
       | _ => false) &&
      (match jgetObj fs "serviceDetails" with
       | some (.obj sd) =>
           isModelService (jgetObj sd "llm") &&
           isModelService (jgetObj sd "stt") &&
           isModelService (jgetObj sd "tts") &&
           isCarrierService (jgetObj sd "twilio") &&
           isServerService (jgetObj sd "server")
       | _ => false)
  | _ => false

/-- A concrete range triple document. -/
def sampleTriple : Json :=
  .obj [("min", .num 10), ("max", .num 30), ("avg", .num 20)]

/-- A concrete llm/stt/tts service record. -/
def sampleModelService : Json :=
  .obj [("provider", .str "OpenAI"), ("model", .str "gpt-4o"),
        ("description", .str "chat"), ("costRange", sampleTriple)]

/-- A concrete well-formed `CostEstimate` document. -/
def sampleEstimate : Json :=
  .obj
    [("costSummary", .obj
        [("totalMonthlyCostRange", sampleTriple),
         ("llmCostRange", sampleTriple),
         ("knowledgeBaseTokenCostRange", sampleTriple),
         ("sttCostRange", sampleTriple),
         ("ttsCostRange", sampleTriple),
         ("twilioCostRange", sampleTriple),
         ("serverCostRange", sampleTriple),
         ("costPerUserRange", sampleTriple),
         ("costPerCallRange", sampleTriple)]),
     ("serviceDetails", .obj
        [("llm", sampleModelService),
         ("stt", sampleModelService),
         ("tts", sampleModelService),
         ("twilio", .obj [("provider", .str "Twilio"),
                          ("description", .str "calls"),
                          ("costRange", sampleTriple)]),
         ("server", .obj [("provider", .str "AWS"),
                          ("instanceType", .str "t3.medium"),
                          ("description", .str "hosting"),
                          ("costRange", sampleTriple)])])]

/-- A state with a request in flight. -/
def submittingState : AppState :=
  { initialState with formData := scenarioAFormData, isLoading := true }

/-- A results-page state holding a previously received estimate. -/
def priorEstimateState : AppState :=
  { formData := scenarioAFormData
    isLoading := false
    estimate := some sampleEstimate
    error := none
    showResults := true }

/-- Claim C3: clicking submit while a request is in flight is a no-op:
the state is unchanged (so it stays Submitting) and no request is
issued, which keeps at most one request outstanding. -/
theorem submit_noop_while_submitting (s : AppState) (h : s.isLoading = true) :
    submitReq s = (s, none) := by
  simp [submitReq, h]

/-- Witness for C3 at a concrete in-flight state. -/
theorem submit_noop_while_submitting_witness :
    submittingState.isLoading = true ∧ submitReq submittingState = (submittingState, none) :=
  ⟨rfl, submit_noop_while_submitting submittingState rfl⟩

/-- Claim C5: the back-to-form handler is exactly the composition of the
pure view action with `reset`; the pure view action returns to the form
screen while leaving the stored estimate and message untouched, and the
clearing is contributed by the composed `reset`. -/
theorem backToForm_is_view_action_composed_with_reset (s : AppState) :
    handleBackToForm s = reset (backToFormView s) ∧
    viewOf (backToFormView s) = Screen.formScreen ∧
    (backToFormView s).estimate = s.estimate ∧
    (backToFormView s).error = s.error :=
  ⟨rfl, rfl, rfl, rfl⟩

/-- Claim C9: the two UI variants share one core: for every form data,
the validation predicate and the derived request payload of App.tsx and
App_fixed.tsx coincide, and both map a failed call to the same message. -/
theorem ui_variants_share_one_core (fd : FormData) :
    Fixed.isFormValid fd = isFormValid fd ∧
    Fixed.toRequestPayload fd = toRequestPayload fd ∧
    Fixed.genericErrorMessage = genericErrorMessage :=
  ⟨rfl, rfl, rfl⟩

/-- Counterexample to claim C1: a success-status response whose decoded
body is the empty array does not move the controller to Failed and does
not leave the estimate unchanged: the previously stored estimate is
replaced by the unwrapped `undefined`, no error is set, and the results
view is shown. -/
theorem emptyArray_response_not_failed :
    ((handleSubmitRun priorEstimateState (NetworkOutcome.response true (some (Json.arr [])))).1.estimate = none) ∧
    priorEstimateState.estimate ≠ none ∧
    ((handleSubmitRun priorEstimateState (NetworkOutcome.response true (some (Json.arr [])))).1.error = none) ∧
    controllerOf (handleSubmitRun priorEstimateState (NetworkOutcome.response true (some (Json.arr [])))).1
      ≠ ControllerState.failed ∧
    (handleSubmitRun priorEstimateState (NetworkOutcome.response true (some (Json.arr [])))).1.showResults = true := by
  refine ⟨rfl, ?_, rfl, ?_, rfl⟩
  · simp [priorEstimateState]
  · simp [controllerOf, handleSubmitRun, handleSubmitStart, handleSubmitFinish,
      unwrapResponse, priorEstimateState]

/-- Claim C1 as amended: the code performs no structural validation of a
success-status body.  Any decodable body is unwrapped and stored as the
estimate as-is (`undefined` for an empty sequence), the error stays
cleared and the results view is shown; only an undecodable body reaches
the catch branch and moves the controller to Failed with the generic
message and the estimate unchanged. -/
theorem success_body_stored_without_validation (s : AppState) (data : Json) :
    (handleSubmitRun s (NetworkOutcome.response true (some data))).1
      = { s with isLoading := false, error := none,
                 estimate := unwrapResponse data, showResults := true } ∧
    (handleSubmitRun s (NetworkOutcome.response true none)).1
      = { s with isLoading := false, error := some genericErrorMessage } :=
  ⟨rfl, rfl⟩

/-- Counterexample to claim C4: a non-success resolution of a retry
issued from the results screen leaves the view on the results screen;
it neither remains on nor returns to the form screen. -/
theorem failed_resolution_can_stay_on_results :
    viewOf (handleSubmitRun priorEstimateState (NetworkOutcome.response false none)).1
      = Screen.resultsScreen ∧
    Screen.resultsScreen ≠ Screen.formScreen :=
  ⟨rfl, by decide⟩

/-- Claim C4 as amended: a non-success resolution moves the controller
to Failed with the generic message, leaves the stored estimate unchanged
(null when none existed) and leaves the view on whichever screen it was
on: the form screen when the submission began there, the results screen
after a failed retry from the results screen. -/
theorem non_success_resolution_fails_in_place (s : AppState) (body : Option Json) :
    (handleSubmitRun s (NetworkOutcome.response false body)).1
      = { s with isLoading := false, error := some genericErrorMessage } ∧
    (handleSubmitRun s (NetworkOutcome.response false body)).1.estimate = s.estimate ∧
    viewOf (handleSubmitRun s (NetworkOutcome.response false body)).1 = viewOf s :=
  ⟨rfl, rfl, rfl⟩

/-- A valid form about to be submitted. -/
def cexSubmitState : AppState :=
  { initialState with formData := scenarioAFormData }

/-- The state after that submission fails with a non-success status. -/
def cexAfterFail : AppState :=
  resolvePending (submitReq cexSubmitState).1 (NetworkOutcome.response false none)

/-- The failed state after the user then edits the calls-per-day field. -/
def cexAfterEdit : AppState :=
  step cexAfterFail (Event.input (FieldUpdate.callsPerDay 99))

/-- Counterexample to claim C2: after a failed submission whose payload
was built from the Scenario A form data, mutating the form and clicking
retry issues a payload different from the most recent submit payload:
the retried payload is rebuilt from the current form data. -/
theorem retry_payload_differs_from_last_submitted :
    (submitReq cexSubmitState).2 = some (toRequestPayload scenarioAFormData) ∧
    controllerOf cexAfterFail = ControllerState.failed ∧
    (retryReq cexAfterEdit).2 ≠ (submitReq cexSubmitState).2 ∧
    (retryReq cexAfterEdit).2 = some (toRequestPayload cexAfterEdit.formData) := by
  refine ⟨by decide, by decide, by decide, by decide⟩

/-- Claim C2 as amended: when no request is in flight, `retry` issues a
submission whose payload is derived from the current form data at retry
time (the source stores no last payload), after clearing the error and
entering the loading state. -/
theorem retry_replays_current_form_payload (s : AppState) (h : s.isLoading = false) :
    retryReq s
      = ({ s with error := none, isLoading := true },
         some (toRequestPayload s.formData)) := by
  simp [retryReq, h, handleSubmitStart]

/-- Witness for the amended C2 at a concrete failed-free state. -/
theorem retry_replays_current_form_payload_witness :
    priorEstimateState.isLoading = false ∧
    retryReq priorEstimateState
      = ({ priorEstimateState with error := none, isLoading := true },
         some (toRequestPayload priorEstimateState.formData)) :=
  ⟨rfl, retry_replays_current_form_payload priorEstimateState rfl⟩

/-- Claim C8: for a well-formed document (an object), normalizing the
document directly and normalizing the one-element list containing it
yield identical results. -/
theorem normalize_singleton_list_eq (d : Json) (h : isWellFormedEstimate d = true) :
    unwrapResponse d = unwrapResponse (Json.arr [d]) := by
  cases d <;> simp_all [isWellFormedEstimate, unwrapResponse]

/-- Witness for C8 at a concrete well-formed estimate document. -/
theorem normalize_singleton_list_eq_witness :
    isWellFormedEstimate sampleEstimate = true ∧
    unwrapResponse sampleEstimate = unwrapResponse (Json.arr [sampleEstimate]) :=
  ⟨by decide, normalize_singleton_list_eq sampleEstimate (by decide)⟩

/-- The finish phase of `handleSubmit` always ends the loading state
(the finally branch of App.tsx lines 196-198). -/
theorem handleSubmitFinish_isLoading (s : AppState) (o : NetworkOutcome) :
    (handleSubmitFinish s o).isLoading = false := by
  cases o with
  | transportError => rfl
  | response ok body => cases ok <;> cases body <;> rfl

/-- Over every reachable component state, a request in flight implies no
stored error (every submission clears the error before issuing the
request). -/
theorem reachable_loading_implies_no_error {s : AppState} (h : Reachable s) :
    s.isLoading = true → s.error = none := by
  induction h with
  | init => intro hl; cases hl
  | next e hr ih =>
    cases e with
    | input u => simpa [step] using ih
    | submitStart =>
        simp only [step, submitReq]
        split
        · exact ih
        · intro _
          rfl
    | retryStart =>
        simp only [step, retryReq]
        split
        · exact ih
        · intro _
          rfl
    | resolve o =>
        simp only [step, resolvePending]
        split
        · intro hl
          rw [handleSubmitFinish_isLoading] at hl
          cases hl
        · exact ih
    | backToForm =>
        intro _
        rfl

/-- Claim C10: every submission clears the stored error before issuing
the request, so in every reachable state the controller being Submitting
or Success implies a null error, and a non-null error is observable only
in the Failed state. -/
theorem error_observable_only_in_failed {s : AppState} (h : Reachable s) :
    (handleSubmitStart s).1.error = none ∧
    (controllerOf s = ControllerState.submitting → s.error = none) ∧
    (controllerOf s = ControllerState.success → s.error = none) ∧
    (s.error ≠ none → controllerOf s = ControllerState.failed) := by
  have hinv := reachable_loading_implies_no_error h
  refine ⟨rfl, ?_⟩
  cases hl : s.isLoading with
  | true =>
      have he := hinv hl
      simp [controllerOf, hl, he]
  | false =>
      cases he : s.error with
      | none => simp [controllerOf, hl, he]
      | some msg => simp [controllerOf, hl, he]

/-- Witness for C10 at the initial state. -/
theorem error_observable_only_in_failed_witness :
    (handleSubmitStart initialState).1.error = none ∧
    (controllerOf initialState = ControllerState.submitting → initialState.error = none) ∧
    (controllerOf initialState = ControllerState.success → initialState.error = none) ∧
    (initialState.error ≠ none → controllerOf initialState = ControllerState.failed) :=
  error_observable_only_in_failed Reachable.init
